import Mathlib

/-!
Verification of the club-negotiator repository: a shallow embedding of the
simulated-annealing vote logic, the utility evaluators, the mediator's
proposal generators, the negotiation loop's commit step and the market-value
parsers, together with proofs and refutations of the specification claims.

Numeric modelling: Python floats are modelled as rationals; the arithmetic in
the embedded code paths is exact decimal arithmetic, so this is faithful for
the concrete inputs considered.  The transcendental functions math.log and
math.exp are modelled as oracle parameters (rlog, rexp); concrete
instantiations use an explicit rational approximation of the natural
logarithm.
-/

/-- Configuration constants read from SA_CONFIG at the call sites of the vote
methods (MIN_CALIBRATION_RATE, FALLBACK_TEMPERATURE, MIN_TEMPERATURE). -/
structure SAConfig where
  min_calibration_rate : ℚ
  fallback_temperature : ℚ
  min_temperature : ℚ
deriving DecidableEq

/-- SA_CONFIG of src/AgentenSystem/config.py:
MIN_CALIBRATION_RATE = 0.1, FALLBACK_TEMPERATURE = 10.0, MIN_TEMPERATURE = 0.01. -/
def agentenSAConfig : SAConfig :=
  { min_calibration_rate := 1/10
    fallback_temperature := 10
    min_temperature := 1/100 }

/-- The mutable simulated-annealing state of a FootballAgent
(src/AgentenSystem/PlayerAgent.py, FootballAgent.__init__): temperature t,
cooling step delta_t, minimum acceptance rate, iteration bounds and counters,
and the calibration accumulators sum_delta / anz_delta / avg_delta. -/
structure SAState where
  t : ℚ
  delta_t : ℚ
  mind_ac_rate : ℚ
  max_iter : ℕ
  cur_iter : ℕ
  max_sim : ℕ
  sum_delta : ℚ
  anz_delta : ℕ
  avg_delta : ℚ
deriving DecidableEq

/-- Initial SA state of a BuyerClubAgent (FootballAgent.__init__ defaults,
then BuyerClubAgent.__init__ overrides from SA_CONFIG of
src/AgentenSystem/config.py: INITIAL_TEMPERATURE = 50.0,
MIN_ACCEPTANCE_RATE = 0.8, MAX_ITERATIONS = 10000,
CALIBRATION_ITERATIONS = 1000).  SellerClubAgent.__init__ produces the same
values. -/
def initSAState : SAState :=
  { t := 50
    delta_t := 0
    mind_ac_rate := 4/5
    max_iter := 10000
    cur_iter := 0
    max_sim := 1000
    sum_delta := 0
    anz_delta := 0
    avg_delta := 0 }

/-- The iteration-count increment and temperature calibration / cooling block
shared by BuyerClubAgent.vote (src/AgentenSystem/BuyerClubAgent.py lines
79-107) and SellerClubAgent.vote (src/AgentenSystem/SellerClubAgent.py lines
134-162), which are textually identical.  rlog is the oracle model of
math.log. -/
def saCalibrate (cfg : SAConfig) (rlog : ℚ → ℚ) (s : SAState) : SAState :=
  let n := s.cur_iter + 1
  if n = s.max_sim then
    let avg : ℚ := if 0 < s.anz_delta then s.sum_delta / (s.anz_delta : ℚ) else 1
    let vbRate : ℚ := ((s.max_sim : ℚ) - (s.anz_delta : ℚ)) / (s.max_sim : ℚ)
    let akz : ℚ := max cfg.min_calibration_rate (s.mind_ac_rate - vbRate)
    let tN : ℚ := if 0 < avg then -avg / rlog akz else cfg.fallback_temperature
    { s with cur_iter := n, avg_delta := avg, t := tN,
             delta_t := tN / ((s.max_iter : ℚ) - (s.max_sim : ℚ)) }
  else if s.max_sim < n then
    { s with cur_iter := n, t := max (s.t - s.delta_t) cfg.min_temperature }
  else
    { s with cur_iter := n }

/-- The full shared simulated-annealing block of BuyerClubAgent.vote
(src/AgentenSystem/BuyerClubAgent.py lines 79-124) and SellerClubAgent.vote
(src/AgentenSystem/SellerClubAgent.py lines 134-179): saCalibrate followed by
the accept/reject decision.  Inputs: the squad utilities cu (current) and pu
(proposed) already computed by the caller, and the uniform random draw r
produced by random.random().  rlog and rexp are the oracle models of
math.log and math.exp.  Returns the vote and the updated agent state. -/
def saCore (cfg : SAConfig) (rlog rexp : ℚ → ℚ) (s : SAState)
    (cu pu r : ℚ) : Bool × SAState :=
  let sCal := saCalibrate cfg rlog s
  if cu < pu then (true, sCal)
  else
    let delta := cu - pu
    let sAcc : SAState :=
      { sCal with sum_delta := sCal.sum_delta + delta, anz_delta := sCal.anz_delta + 1 }
    if sAcc.cur_iter < sAcc.max_sim then
      (decide (r ≤ sAcc.mind_ac_rate), sAcc)
    else if 0 < sAcc.t then
      (decide (r ≤ rexp (-delta / sAcc.t)), sAcc)
    else
      (false, sAcc)

/-- The iteration-count increment and calibration / cooling block of
ClubAgent.vote (src/ClubAgent.py lines 161-178).  Differs from saCalibrate in
one place: the calibration formula is additionally guarded by
akzeptanzrate > 0. -/
def clubCalibrate (cfg : SAConfig) (rlog : ℚ → ℚ) (s : SAState) : SAState :=
  let n := s.cur_iter + 1
  if n = s.max_sim then
    let avg : ℚ := if 0 < s.anz_delta then s.sum_delta / (s.anz_delta : ℚ) else 1
    let vbRate : ℚ := ((s.max_sim : ℚ) - (s.anz_delta : ℚ)) / (s.max_sim : ℚ)
    let akz : ℚ := max cfg.min_calibration_rate (s.mind_ac_rate - vbRate)
    let tN : ℚ := if 0 < avg ∧ 0 < akz then -avg / rlog akz else cfg.fallback_temperature
    { s with cur_iter := n, avg_delta := avg, t := tN,
             delta_t := tN / ((s.max_iter : ℚ) - (s.max_sim : ℚ)) }
  else if s.max_sim < n then
    { s with cur_iter := n, t := max (s.t - s.delta_t) cfg.min_temperature }
  else
    { s with cur_iter := n }

/-- ClubAgent.vote (src/ClubAgent.py lines 156-198): clubCalibrate followed
by the accept/reject decision of lines 180-198.  Unlike the AgentenSystem
agents, the exponential here is wrapped in try/except OverflowError with the
except branch returning False; the math.exp oracle is therefore partial:
rexp q = none models an OverflowError raised by math.exp(q). -/
def clubCore (cfg : SAConfig) (rlog : ℚ → ℚ) (rexp : ℚ → Option ℚ) (s : SAState)
    (cu pu r : ℚ) : Bool × SAState :=
  let sCal := clubCalibrate cfg rlog s
  if cu < pu then (true, sCal)
  else
    let delta := cu - pu
    let sAcc : SAState :=
      { sCal with sum_delta := sCal.sum_delta + delta, anz_delta := sCal.anz_delta + 1 }
    if sAcc.cur_iter < sAcc.max_sim then
      (decide (r ≤ sAcc.mind_ac_rate), sAcc)
    else if 0 < sAcc.t then
      match rexp (-delta / sAcc.t) with
      | some w => (decide (r ≤ w), sAcc)
      | none => (false, sAcc)
    else
      (false, sAcc)

/-- BuyerClubAgent.vote's SA block again (the same source lines as saCalibrate
and saCore), but with the exception behaviour made explicit:
BuyerClubAgent.vote contains no try/except, so a ValueError raised by
math.log (argument not positive) or an OverflowError raised by math.exp
propagates to the caller.  The oracles are partial (none models the
respective error) and a none result models an uncaught exception escaping
vote. -/
def buyerCalibrateExc (cfg : SAConfig) (rlog : ℚ → Option ℚ) (s : SAState) :
    Option SAState :=
  let n := s.cur_iter + 1
  if n = s.max_sim then
    let avg : ℚ := if 0 < s.anz_delta then s.sum_delta / (s.anz_delta : ℚ) else 1
    let vbRate : ℚ := ((s.max_sim : ℚ) - (s.anz_delta : ℚ)) / (s.max_sim : ℚ)
    let akz : ℚ := max cfg.min_calibration_rate (s.mind_ac_rate - vbRate)
    let tNOpt : Option ℚ :=
      if 0 < avg then (rlog akz).map (fun l => -avg / l)
      else some cfg.fallback_temperature
    tNOpt.map (fun tN =>
      { s with cur_iter := n, avg_delta := avg, t := tN,
               delta_t := tN / ((s.max_iter : ℚ) - (s.max_sim : ℚ)) })
  else if s.max_sim < n then
    some { s with cur_iter := n, t := max (s.t - s.delta_t) cfg.min_temperature }
  else
    some { s with cur_iter := n }

/-- The decision part composed with buyerCalibrateExc; see the comment above
buyerCalibrateExc. -/
def buyerCoreExc (cfg : SAConfig) (rlog rexp : ℚ → Option ℚ) (s : SAState)
    (cu pu r : ℚ) : Option (Bool × SAState) :=
  match buyerCalibrateExc cfg rlog s with
  | none => none
  | some sCal =>
    if cu < pu then some (true, sCal)
    else
      let delta := cu - pu
      let sAcc : SAState :=
        { sCal with sum_delta := sCal.sum_delta + delta, anz_delta := sCal.anz_delta + 1 }
      if sAcc.cur_iter < sAcc.max_sim then
        some (decide (r ≤ sAcc.mind_ac_rate), sAcc)
      else if 0 < sAcc.t then
        match rexp (-delta / sAcc.t) with
        | some w => some (decide (r ≤ w), sAcc)
        | none => none
      else
        some (false, sAcc)

/-- A computable rational stand-in for the natural logarithm, used when a
concrete oracle is needed: the truncated atanh series
log x = 2 * (u + u^3/3 + u^5/5 + u^7/7) with u = (x-1)/(x+1).
On the range of acceptance rates appearing here (0.1 to 0.8) it agrees with
math.log to within a few percent; every concrete statement below that uses
it depends only on coarse bounds that the true logarithm satisfies as well. -/
def qlogApprox (x : ℚ) : ℚ :=
  let u := (x - 1) / (x + 1)
  2 * (u + u^3 / 3 + u^5 / 5 + u^7 / 7)

/-- A concrete total exponential oracle for witnesses: the code paths in the
theorems using it never depend on its value. -/
def qexpOne : ℚ → ℚ := fun _ => 1

/-- Projection facts: the accept/reject decision part of the vote never
changes t, delta_t or avg_delta, so those fields of the post-vote state equal
the corresponding fields after the calibration / cooling block. -/
theorem saCore_snd_fields (cfg : SAConfig) (rlog rexp : ℚ → ℚ) (s : SAState)
    (cu pu r : ℚ) :
    (saCore cfg rlog rexp s cu pu r).2.t = (saCalibrate cfg rlog s).t ∧
    (saCore cfg rlog rexp s cu pu r).2.delta_t = (saCalibrate cfg rlog s).delta_t ∧
    (saCore cfg rlog rexp s cu pu r).2.avg_delta = (saCalibrate cfg rlog s).avg_delta ∧
    (saCore cfg rlog rexp s cu pu r).2.cur_iter = (saCalibrate cfg rlog s).cur_iter ∧
    (saCore cfg rlog rexp s cu pu r).2.max_sim = (saCalibrate cfg rlog s).max_sim := by
  unfold saCore
  dsimp only
  split_ifs <;> simp

/-- Field bookkeeping for the calibration / cooling block: cur_iter is
incremented and max_sim, max_iter, mind_ac_rate, sum_delta, anz_delta are
never touched by it. -/
theorem saCalibrate_fields (cfg : SAConfig) (rlog : ℚ → ℚ) (s : SAState) :
    (saCalibrate cfg rlog s).cur_iter = s.cur_iter + 1 ∧
    (saCalibrate cfg rlog s).max_sim = s.max_sim ∧
    (saCalibrate cfg rlog s).max_iter = s.max_iter ∧
    (saCalibrate cfg rlog s).mind_ac_rate = s.mind_ac_rate ∧
    (saCalibrate cfg rlog s).sum_delta = s.sum_delta ∧
    (saCalibrate cfg rlog s).anz_delta = s.anz_delta := by
  unfold saCalibrate
  dsimp only
  split_ifs <;> simp

/-- Claim C2: in every phase (warm-up, calibration round, cooling), a vote on
a proposal whose utility strictly exceeds the current utility returns True
unconditionally, independently of the random draw, the temperature and the
iteration counter.  Stated for the shared SA block of BuyerClubAgent.vote /
SellerClubAgent.vote and for ClubAgent.vote, over arbitrary states, oracles
and draws. -/
theorem vote_accepts_strict_improvement
    (cfg : SAConfig) (rlog rexp : ℚ → ℚ) (rexpC : ℚ → Option ℚ) (s : SAState)
    (cu pu r : ℚ) (h : cu < pu) :
    (saCore cfg rlog rexp s cu pu r).1 = true ∧
    (clubCore cfg rlog rexpC s cu pu r).1 = true := by
  constructor
  · unfold saCore; simp [h]
  · unfold clubCore; simp [h]

/-- Witness for C2 at a concrete input. -/
theorem vote_accepts_strict_improvement_witness :
    (0 : ℚ) < 1 ∧
    (saCore agentenSAConfig qlogApprox qexpOne initSAState 0 1 0).1 = true ∧
    (clubCore agentenSAConfig qlogApprox (fun _ => none) initSAState 0 1 0).1 = true :=
  ⟨by norm_num,
   vote_accepts_strict_improvement agentenSAConfig qlogApprox qexpOne
     (fun _ => none) initSAState 0 1 0 (by norm_num)⟩

/-- Modelled from the spec: the calibrated average delta of section 4.2,
sum_delta / count with fallback 1.0 when count is 0. -/
def specAvgDelta (s : SAState) : ℚ :=
  if s.anz_delta = 0 then 1 else s.sum_delta / (s.anz_delta : ℚ)

/-- Modelled from the spec: the effective target acceptance rate
max(MIN_CALIBRATION_RATE, MIN_ACCEPTANCE_RATE -
(CALIBRATION_ITERATIONS - count) / CALIBRATION_ITERATIONS). -/
def specEffectiveRate (cfg : SAConfig) (s : SAState) : ℚ :=
  max cfg.min_calibration_rate
    (s.mind_ac_rate - ((s.max_sim : ℚ) - (s.anz_delta : ℚ)) / (s.max_sim : ℚ))

/-- Modelled from the spec: the calibrated temperature
T = -avg_delta / ln(effective rate) when avg_delta > 0, else the fallback
temperature constant. -/
def specCalibratedT (cfg : SAConfig) (rlog : ℚ → ℚ) (s : SAState) : ℚ :=
  if 0 < specAvgDelta s then -specAvgDelta s / rlog (specEffectiveRate cfg s)
  else cfg.fallback_temperature

/-- Modelled from the spec: the linear cooling step
T / (MAX_ITERATIONS - CALIBRATION_ITERATIONS). -/
def specCoolingStep (cfg : SAConfig) (rlog : ℚ → ℚ) (s : SAState) : ℚ :=
  specCalibratedT cfg rlog s / ((s.max_iter : ℚ) - (s.max_sim : ℚ))

/-- Claim C3: on the vote call at which cur_iter reaches
CALIBRATION_ITERATIONS (and on no other call) the agent sets avg_delta, the
temperature and the cooling step to exactly the values given by the spec's
calibration formulas; on every other call avg_delta and the cooling step are
left unchanged.  Stated for the shared SA block of BuyerClubAgent.vote and
SellerClubAgent.vote, with rlog the oracle for math.log (the same oracle
appears on both sides of the equations). -/
theorem calibration_fires_with_spec_formulas
    (cfg : SAConfig) (rlog rexp : ℚ → ℚ) (s : SAState) (cu pu r : ℚ) :
    (s.cur_iter + 1 = s.max_sim →
      (saCore cfg rlog rexp s cu pu r).2.avg_delta = specAvgDelta s ∧
      (saCore cfg rlog rexp s cu pu r).2.t = specCalibratedT cfg rlog s ∧
      (saCore cfg rlog rexp s cu pu r).2.delta_t = specCoolingStep cfg rlog s) ∧
    (s.cur_iter + 1 ≠ s.max_sim →
      (saCore cfg rlog rexp s cu pu r).2.avg_delta = s.avg_delta ∧
      (saCore cfg rlog rexp s cu pu r).2.delta_t = s.delta_t) := by
  obtain ⟨ht, hdt, havg, _, _⟩ := saCore_snd_fields cfg rlog rexp s cu pu r
  rw [ht, hdt, havg]
  unfold saCalibrate
  constructor
  · intro h
    simp only [h, if_pos rfl]
    by_cases hz : s.anz_delta = 0
    · simp [hz, specAvgDelta, specEffectiveRate, specCalibratedT, specCoolingStep]
    · have hpos : 0 < s.anz_delta := Nat.pos_of_ne_zero hz
      simp [hz, hpos, specAvgDelta, specEffectiveRate, specCalibratedT, specCoolingStep]
  · intro h
    simp only [h, if_false]
    split_ifs <;> simp

/-- Witness for C3 at a concrete input: a state one call before calibration
(and, for the second conjunct, the initial state). -/
theorem calibration_fires_with_spec_formulas_witness :
    ({ initSAState with cur_iter := 999 } : SAState).cur_iter + 1 =
      ({ initSAState with cur_iter := 999 } : SAState).max_sim ∧
    ((saCore agentenSAConfig qlogApprox qexpOne
        { initSAState with cur_iter := 999 } 1 0 0).2.avg_delta =
      specAvgDelta { initSAState with cur_iter := 999 } ∧
     (saCore agentenSAConfig qlogApprox qexpOne
        { initSAState with cur_iter := 999 } 1 0 0).2.t =
      specCalibratedT agentenSAConfig qlogApprox { initSAState with cur_iter := 999 } ∧
     (saCore agentenSAConfig qlogApprox qexpOne
        { initSAState with cur_iter := 999 } 1 0 0).2.delta_t =
      specCoolingStep agentenSAConfig qlogApprox { initSAState with cur_iter := 999 }) :=
  ⟨by decide,
   (calibration_fires_with_spec_formulas agentenSAConfig qlogApprox qexpOne
      { initSAState with cur_iter := 999 } 1 0 0).1 (by decide)⟩

/-- Claim C4 (amended part): every vote call made strictly after the
calibration call (cur_iter + 1 > CALIBRATION_ITERATIONS) leaves the
temperature at or above MIN_TEMPERATURE, because the cooling decrement is
clamped with max. -/
theorem temperature_floor_after_cooling
    (cfg : SAConfig) (rlog rexp : ℚ → ℚ) (s : SAState) (cu pu r : ℚ)
    (h : s.max_sim < s.cur_iter + 1) :
    cfg.min_temperature ≤ (saCore cfg rlog rexp s cu pu r).2.t := by
  obtain ⟨ht, _, _, _, _⟩ := saCore_snd_fields cfg rlog rexp s cu pu r
  rw [ht]
  unfold saCalibrate
  have hne : s.cur_iter + 1 ≠ s.max_sim := by omega
  simp only [hne, if_false, h, if_true]
  exact le_max_right _ _

/-- A run of the shared SA block: apply the vote decision successively to a
list of inputs (current utility, proposed utility, random draw), returning
the final agent state. -/
def runSA (cfg : SAConfig) (rlog rexp : ℚ → ℚ) : SAState → List (ℚ × ℚ × ℚ) → SAState
  | s, [] => s
  | s, i :: rest => runSA cfg rlog rexp (saCore cfg rlog rexp s i.1 i.2.1 i.2.2).2 rest

theorem runSA_cons (cfg : SAConfig) (rlog rexp : ℚ → ℚ) (s : SAState)
    (i : ℚ × ℚ × ℚ) (l : List (ℚ × ℚ × ℚ)) :
    runSA cfg rlog rexp s (i :: l) =
      runSA cfg rlog rexp (saCore cfg rlog rexp s i.1 i.2.1 i.2.2).2 l := rfl

theorem runSA_append (cfg : SAConfig) (rlog rexp : ℚ → ℚ) (l₁ l₂ : List (ℚ × ℚ × ℚ)) :
    ∀ s : SAState, runSA cfg rlog rexp s (l₁ ++ l₂) =
      runSA cfg rlog rexp (runSA cfg rlog rexp s l₁) l₂ := by
  induction l₁ with
  | nil => intro s; rfl
  | cons i t ih => intro s; rw [List.cons_append, runSA_cons, runSA_cons, ih]

/-- A warm-up call on a strictly improving proposal only increments the
iteration counter. -/
theorem saCore_warmup_improving (cfg : SAConfig) (rlog rexp : ℚ → ℚ) (s : SAState)
    (r : ℚ) (h : s.cur_iter + 1 < s.max_sim) :
    (saCore cfg rlog rexp s 0 1 r).2 = { s with cur_iter := s.cur_iter + 1 } := by
  unfold saCore saCalibrate
  have h1 : s.cur_iter + 1 ≠ s.max_sim := by omega
  have h2 : ¬ s.max_sim < s.cur_iter + 1 := by omega
  norm_num [h1, h2]

theorem runSA_replicate_improving (cfg : SAConfig) (rlog rexp : ℚ → ℚ) (r : ℚ) :
    ∀ (k : ℕ) (s : SAState), s.cur_iter + k < s.max_sim →
      runSA cfg rlog rexp s (List.replicate k (0, 1, r)) =
        { s with cur_iter := s.cur_iter + k } := by
  intro k
  induction k with
  | zero => intro s _; show s = _; cases s; rfl
  | succ n ih =>
    intro s h
    obtain ⟨t, dt, mar, mi, ci, ms, sd, ad, avd⟩ := s
    dsimp only at h
    rw [List.replicate_succ, runSA_cons,
      saCore_warmup_improving cfg rlog rexp _ r (by dsimp only; omega)]
    rw [ih _ (by dsimp only; omega)]
    congr 1
    dsimp only
    omega

/-- The vote-call inputs (current utility, proposed utility, random draw) of a
1000-round run of a fresh AgentenSystem agent: one warm-up rejection with
delta 1/1000 followed by 999 strictly improving proposals, the last of which
is the calibration call (cur_iter reaches CALIBRATION_ITERATIONS = 1000). -/
def c4Inputs : List (ℚ × ℚ × ℚ) :=
  (1/1000, 0, 1) :: (List.replicate 998 (0, 1, 0) ++ [(0, 1, 0)])

/-- The agent state after the run described at c4Inputs. -/
def c4Run : SAState := runSA agentenSAConfig qlogApprox qexpOne initSAState c4Inputs

theorem c4Run_eq :
    c4Run =
      { t := -(1/1000) / qlogApprox (1/10)
        delta_t := -(1/1000) / qlogApprox (1/10) / 9000
        mind_ac_rate := 4/5
        max_iter := 10000
        cur_iter := 1000
        max_sim := 1000
        sum_delta := 1/1000
        anz_delta := 1
        avg_delta := 1/1000 } := by
  have h1 : (saCore agentenSAConfig qlogApprox qexpOne initSAState (1/1000) 0 1).2 =
      { t := 50, delta_t := 0, mind_ac_rate := 4/5, max_iter := 10000, cur_iter := 1,
        max_sim := 1000, sum_delta := 1/1000, anz_delta := 1, avg_delta := 0 } := by
    norm_num [saCore, saCalibrate, initSAState, agentenSAConfig]
  have h2 : runSA agentenSAConfig qlogApprox qexpOne
      { t := 50, delta_t := 0, mind_ac_rate := 4/5, max_iter := 10000, cur_iter := 1,
        max_sim := 1000, sum_delta := 1/1000, anz_delta := 1, avg_delta := 0 }
      (List.replicate 998 (0, 1, 0)) =
      { t := 50, delta_t := 0, mind_ac_rate := 4/5, max_iter := 10000, cur_iter := 999,
        max_sim := 1000, sum_delta := 1/1000, anz_delta := 1, avg_delta := 0 } := by
    rw [runSA_replicate_improving agentenSAConfig qlogApprox qexpOne 0 998 _ (by norm_num)]
  have h3 : (saCore agentenSAConfig qlogApprox qexpOne
      { t := 50, delta_t := 0, mind_ac_rate := 4/5, max_iter := 10000, cur_iter := 999,
        max_sim := 1000, sum_delta := 1/1000, anz_delta := 1, avg_delta := 0 } 0 1 0).2 =
      { t := -(1/1000) / qlogApprox (1/10)
        delta_t := -(1/1000) / qlogApprox (1/10) / 9000
        mind_ac_rate := 4/5
        max_iter := 10000
        cur_iter := 1000
        max_sim := 1000
        sum_delta := 1/1000
        anz_delta := 1
        avg_delta := 1/1000 } := by
    norm_num [saCore, saCalibrate, agentenSAConfig]
  unfold c4Run c4Inputs
  rw [runSA_cons]
  simp only []
  rw [h1, runSA_append, h2, runSA_cons, h3]
  rfl

/-- Counterexample to claim C4 as stated: after the reachable 1000-call run
c4Run the calibration call has just executed (cur_iter = CALIBRATION_
ITERATIONS = 1000) yet the temperature is about 0.00045, strictly below
MIN_TEMPERATURE = 0.01, because the calibration branch assigns
T = -avg_delta / log(rate) without clamping to the floor. -/
theorem temperature_floor_counterexample :
    initSAState.max_sim ≤ c4Run.cur_iter ∧
    c4Run.t < agentenSAConfig.min_temperature := by
  rw [c4Run_eq]
  constructor
  · norm_num [initSAState]
  · norm_num [agentenSAConfig, qlogApprox]

/-- Witness for the amended C4 theorem at a concrete input: a cooling call on
a fresh-config state with cur_iter = 1000. -/
theorem temperature_floor_after_cooling_witness :
    ({ initSAState with cur_iter := 1000 } : SAState).max_sim <
      ({ initSAState with cur_iter := 1000 } : SAState).cur_iter + 1 ∧
    agentenSAConfig.min_temperature ≤
      (saCore agentenSAConfig qlogApprox qexpOne
        { initSAState with cur_iter := 1000 } 0 1 0).2.t :=
  ⟨by norm_num [initSAState],
   temperature_floor_after_cooling agentenSAConfig qlogApprox qexpOne
     { initSAState with cur_iter := 1000 } 0 1 0 (by norm_num [initSAState])⟩

/-- Claim C6 (amended): on every vote call of the shared AgentenSystem SA
block, a strictly improving proposal leaves sum_delta and anz_delta
unchanged, and every non-improving proposal adds the delta to sum_delta and
increments anz_delta - in every phase (warm-up, calibration call, cooling)
and regardless of whether the random draw accepts the proposal. -/
theorem accumulators_update_on_every_nonimproving_call
    (cfg : SAConfig) (rlog rexp : ℚ → ℚ) (s : SAState) (cu pu r : ℚ) :
    (cu < pu →
      (saCore cfg rlog rexp s cu pu r).2.sum_delta = s.sum_delta ∧
      (saCore cfg rlog rexp s cu pu r).2.anz_delta = s.anz_delta) ∧
    (¬ cu < pu →
      (saCore cfg rlog rexp s cu pu r).2.sum_delta = s.sum_delta + (cu - pu) ∧
      (saCore cfg rlog rexp s cu pu r).2.anz_delta = s.anz_delta + 1) := by
  obtain ⟨-, -, -, -, hsd, had⟩ := saCalibrate_fields cfg rlog s
  constructor
  · intro h
    unfold saCore
    simp only [if_pos h]
    exact ⟨hsd, had⟩
  · intro h
    unfold saCore
    simp only [if_neg h]
    split_ifs <;> exact ⟨by simp [hsd], by simp [had]⟩

/-- Witness for the amended C6 theorem at concrete inputs. -/
theorem accumulators_update_witness :
    ¬ (1 : ℚ) < 0 ∧
    (saCore agentenSAConfig qlogApprox qexpOne initSAState 1 0 1).2.sum_delta =
      initSAState.sum_delta + (1 - 0) ∧
    (saCore agentenSAConfig qlogApprox qexpOne initSAState 1 0 1).2.anz_delta =
      initSAState.anz_delta + 1 :=
  ⟨by norm_num,
   (accumulators_update_on_every_nonimproving_call agentenSAConfig qlogApprox
      qexpOne initSAState 1 0 1).2 (by norm_num)⟩

/-- Counterexample to claim C6 as stated: after the reachable 1000-call run
c4Run the calibration iteration has passed (cur_iter = 1000 =
CALIBRATION_ITERATIONS), yet the next vote call on a non-improving proposal
still mutates both sum_delta and anz_delta. -/
theorem accumulators_counterexample :
    initSAState.max_sim ≤ c4Run.cur_iter ∧
    (saCore agentenSAConfig qlogApprox qexpOne c4Run 1 0 1).2.sum_delta ≠
      c4Run.sum_delta ∧
    (saCore agentenSAConfig qlogApprox qexpOne c4Run 1 0 1).2.anz_delta ≠
      c4Run.anz_delta := by
  rw [c4Run_eq]
  refine ⟨by norm_num [initSAState], ?_, ?_⟩ <;>
    norm_num [saCore, saCalibrate, agentenSAConfig, qlogApprox]

theorem clubCalibrate_counters (cfg : SAConfig) (rlog : ℚ → ℚ) (s : SAState) :
    (clubCalibrate cfg rlog s).cur_iter = s.cur_iter + 1 ∧
    (clubCalibrate cfg rlog s).max_sim = s.max_sim := by
  unfold clubCalibrate
  dsimp only
  split_ifs <;> simp

/-- Claim C5: math-domain failures in the acceptance computation degrade to
rejection instead of escaping the vote.  First conjunct (BuyerClubAgent.vote,
which has no try/except): under the actual domain behaviour of math.exp
(total on non-positive arguments) and math.log (total on positive arguments),
and a positive MIN_CALIBRATION_RATE as configured, no call of the SA block
can raise at all - the log argument is clamped to at least
MIN_CALIBRATION_RATE and the exp argument -delta/T is non-positive whenever
exp is reached.  Second conjunct (ClubAgent.vote): on any call that reaches
the exponential (non-improving proposal at or after the calibration
iteration), if math.exp raises OverflowError the except branch returns
False. -/
theorem math_errors_degrade_to_rejection :
    (∀ (cfg : SAConfig) (rlog rexp : ℚ → Option ℚ) (s : SAState) (cu pu r : ℚ),
      (∀ q : ℚ, q ≤ 0 → (rexp q).isSome) →
      (∀ q : ℚ, 0 < q → (rlog q).isSome) →
      0 < cfg.min_calibration_rate →
      (buyerCoreExc cfg rlog rexp s cu pu r).isSome) ∧
    (∀ (cfg : SAConfig) (rlog : ℚ → ℚ) (s : SAState) (cu pu r : ℚ),
      ¬ cu < pu → ¬ s.cur_iter + 1 < s.max_sim →
      (clubCore cfg rlog (fun _ => none) s cu pu r).1 = false) := by
  constructor
  · intro cfg rlog rexp s cu pu r hexp hlog hcal
    have hCal : (buyerCalibrateExc cfg rlog s).isSome := by
      unfold buyerCalibrateExc
      dsimp only
      by_cases h1 : s.cur_iter + 1 = s.max_sim
      · rw [if_pos h1]
        by_cases havg :
            0 < (if 0 < s.anz_delta then s.sum_delta / (s.anz_delta : ℚ) else 1)
        · rw [if_pos havg]
          have hakz : 0 < max cfg.min_calibration_rate
              (s.mind_ac_rate - ((s.max_sim : ℚ) - (s.anz_delta : ℚ)) / (s.max_sim : ℚ)) :=
            lt_of_lt_of_le hcal (le_max_left _ _)
          obtain ⟨l, hl⟩ := Option.isSome_iff_exists.mp (hlog _ hakz)
          rw [hl]
          simp
        · rw [if_neg havg]
          simp
      · rw [if_neg h1]
        split_ifs <;> simp
    obtain ⟨sCal, hsCal⟩ := Option.isSome_iff_exists.mp hCal
    unfold buyerCoreExc
    rw [hsCal]
    by_cases himp : cu < pu
    · simp [himp]
    · simp only [himp, if_false]
      split_ifs with hw ht
      · simp
      · have hdelta : (0 : ℚ) ≤ cu - pu := by
          have := not_lt.mp himp
          linarith
        have harg : (pu - cu) / sCal.t ≤ 0 := by
          apply div_nonpos_of_nonpos_of_nonneg
          · linarith
          · exact le_of_lt ht
        rcases hrw : rexp ((pu - cu) / sCal.t) with _ | w
        · have hs := hexp ((pu - cu) / sCal.t) harg
          rw [hrw] at hs
          exact absurd hs (by simp)
        · simp only [neg_sub]
          rw [hrw]
          simp
      · simp
  · intro cfg rlog s cu pu r himp hpost
    obtain ⟨hci, hms⟩ := clubCalibrate_counters cfg rlog s
    unfold clubCore
    simp only [himp, if_false]
    split_ifs with hw ht
    · exfalso
      rw [hci, hms] at hw
      omega
    · rfl
    · rfl

/-- Witness for C5 at concrete inputs: a total-on-nonpositives exp oracle and
a total-on-positives log oracle for the buyer conjunct, and a
post-calibration non-improving call with an always-overflowing exp for the
club conjunct. -/
theorem math_errors_degrade_to_rejection_witness :
    (buyerCoreExc agentenSAConfig (fun q => some (qlogApprox q))
      (fun q => if q ≤ 0 then some 1 else none) initSAState 1 0 0).isSome ∧
    (clubCore agentenSAConfig qlogApprox (fun _ => none)
      { initSAState with cur_iter := 1000 } 1 0 0).1 = false :=
  ⟨math_errors_degrade_to_rejection.1 agentenSAConfig
      (fun q => some (qlogApprox q)) (fun q => if q ≤ 0 then some 1 else none)
      initSAState 1 0 0
      (fun q hq => by simp [hq]) (fun q _ => by simp)
      (by norm_num [agentenSAConfig]),
   math_errors_degrade_to_rejection.2 agentenSAConfig qlogApprox
      { initSAState with cur_iter := 1000 } 1 0 0
      (by norm_num) (by norm_num [initSAState])⟩

/-- The Player record of src/AgentenSystem/PlayerAgent.py: identity fields
plus the 24 skill attributes (integers in the source, embedded into ℚ here
since all downstream arithmetic is rational). -/
structure Player where
  name : String
  country : String
  age : ℚ
  club : String
  value : ℚ
  ball_control : ℚ
  dribbling : ℚ
  slide_tackle : ℚ
  stand_tackle : ℚ
  aggression : ℚ
  reactions : ℚ
  att_position : ℚ
  interceptions : ℚ
  vision : ℚ
  composure : ℚ
  crossing : ℚ
  short_pass : ℚ
  long_pass : ℚ
  acceleration : ℚ
  stamina : ℚ
  strength : ℚ
  balance : ℚ
  sprint_speed : ℚ
  agility : ℚ
  jumping : ℚ
  heading : ℚ
  shot_power : ℚ
  finishing : ℚ
  long_shots : ℚ
deriving DecidableEq

/-- Player.get_attribute_vector: the 24 attributes in the fixed documented
order. -/
def get_attribute_vector (p : Player) : List ℚ :=
  [p.ball_control, p.dribbling, p.slide_tackle, p.stand_tackle, p.aggression,
   p.reactions, p.att_position, p.interceptions, p.vision, p.composure,
   p.crossing, p.short_pass, p.long_pass, p.acceleration, p.stamina,
   p.strength, p.balance, p.sprint_speed, p.agility, p.jumping, p.heading,
   p.shot_power, p.finishing, p.long_shots]

/-- A sample player for concrete statements: every attribute 0 except the
given age and short-pass value. -/
def mkPlayer (nm : String) (ag sp : ℚ) : Player :=
  { name := nm, country := "Unbekannt", age := ag, club := "Unbekannt",
    value := 0, ball_control := 0, dribbling := 0, slide_tackle := 0,
    stand_tackle := 0, aggression := 0, reactions := 0, att_position := 0,
    interceptions := 0, vision := 0, composure := 0, crossing := 0,
    short_pass := sp, long_pass := 0, acceleration := 0, stamina := 0,
    strength := 0, balance := 0, sprint_speed := 0, agility := 0,
    jumping := 0, heading := 0, shot_power := 0, finishing := 0,
    long_shots := 0 }

/-- FootballAgent.evaluate_player: dot product of the agent's normalized
attribute weights with the player's attribute vector. -/
def evaluate_player (weights : List ℚ) (p : Player) : ℚ :=
  ((weights.zip (get_attribute_vector p)).map (fun wa => wa.1 * wa.2)).sum

/-- UTILITY_CONFIG of src/AgentenSystem/config.py. -/
def SYNERGY_WEIGHT : ℚ := 10
def AGE_BONUS_WEIGHT : ℚ := 1
def IDEAL_AVERAGE_AGE : ℚ := 27
def AGE_PENALTY_PER_YEAR : ℚ := 2
def MAX_AGE_BONUS : ℚ := 100
def MAX_PASS_SYNERGY : ℚ := 10
def PASS_SYNERGY_THRESHOLD : ℚ := 10
def MAX_AGE_SYNERGY : ℚ := 5
def AGE_SYNERGY_DIVISOR : ℚ := 3

/-- Indexing self.players at each entry of squad_indices, as done by the
bonus computations; none models an IndexError. -/
def getPlayersAt (players : List Player) : List ℕ → Option (List Player)
  | [] => some []
  | i :: rest =>
    match players.get? i with
    | none => none
    | some p => (getPlayersAt players rest).map (p :: ·)

/-- SellerClubAgent._calculate_age_bonus (src/AgentenSystem/SellerClubAgent.py
lines 208-223): collect the ages of the indexed players, then divide their
sum by their count before any emptiness check; none models the
ZeroDivisionError raised on an empty squad (or an IndexError). -/
def seller_calculate_age_bonus (players : List Player) (squad : List ℕ) : Option ℚ :=
  match getPlayersAt players squad with
  | none => none
  | some ps =>
    let ages := ps.map Player.age
    if ages.length = 0 then none
    else
      let avg_age := ages.sum / (ages.length : ℚ)
      some (max 0 (MAX_AGE_BONUS - |avg_age - IDEAL_AVERAGE_AGE| * AGE_PENALTY_PER_YEAR)
        * AGE_BONUS_WEIGHT)

/-- BuyerClubAgent._calculate_age_bonus (src/AgentenSystem/BuyerClubAgent.py
lines 153-168); the body is textually identical to the seller's override and
has the same unguarded division. -/
def buyer_calculate_age_bonus (players : List Player) (squad : List ℕ) : Option ℚ :=
  match getPlayersAt players squad with
  | none => none
  | some ps =>
    let ages := ps.map Player.age
    if ages.length = 0 then none
    else
      let avg_age := ages.sum / (ages.length : ℚ)
      some (max 0 (MAX_AGE_BONUS - |avg_age - IDEAL_AVERAGE_AGE| * AGE_PENALTY_PER_YEAR)
        * AGE_BONUS_WEIGHT)

/-- FootballAgent._calculate_age_bonus (src/AgentenSystem/PlayerAgent.py
lines 339-354): the base-class version, guarded twice against the empty
squad, with hard-coded ideal age 27, penalty 2 per year and maximum 100. -/
def football_agent_calculate_age_bonus (players : List Player) (squad : List ℕ) :
    Option ℚ :=
  if squad = [] then some 0
  else
    match getPlayersAt players squad with
    | none => none
    | some ps =>
      let ages := ps.map Player.age
      if ages = [] then some 0
      else some (max 0 (100 - |ages.sum / (ages.length : ℚ) - 27| * 2))

/-- Claim C9 is a code bug: the base FootballAgent guard returns bonus 0 on
an empty squad as the spec requires, but the BuyerClubAgent and
SellerClubAgent overrides recompute the bonus without the guard and divide by
the length of the empty age list, raising ZeroDivisionError (modelled as
none). -/
theorem age_bonus_empty_squad :
    buyer_calculate_age_bonus [mkPlayer ("A") 25 50] [] = none ∧
    seller_calculate_age_bonus [mkPlayer ("A") 25 50] [] = none ∧
    football_agent_calculate_age_bonus [mkPlayer ("A") 25 50] [] = some 0 := by
  refine ⟨rfl, rfl, rfl⟩

/-- Result of one negotiation round of run_club_negotiation: both clubs'
live player pools and whether the trade was executed. -/
structure TradeResult where
  buyerPlayers : List Player
  sellerPlayers : List Player
  executed : Bool
deriving DecidableEq

/-- The trade-execution block of run_club_negotiation
(src/AgentenSystem/main.py lines 270-293): remove the given player from each
pool and append the received one.  Python list.remove raises ValueError when
the element is absent; the surrounding try/except then reports the trade as
not executed, with any mutations already made kept - modelled by the nested
membership checks. -/
def executeTradeBlock (bp sp : List Player) (pb ps : Player) : TradeResult :=
  if pb ∈ bp then
    let bp' := bp.erase pb ++ [ps]
    if ps ∈ sp then
      { buyerPlayers := bp', sellerPlayers := sp.erase ps ++ [pb], executed := true }
    else
      { buyerPlayers := bp', sellerPlayers := sp, executed := false }
  else
    { buyerPlayers := bp, sellerPlayers := sp, executed := false }

/-- One round of the inter-club loop of run_club_negotiation
(src/AgentenSystem/main.py lines 265-302), given the proposed players and the
two agents' votes: the trade block runs if and only if both votes are true. -/
def run_club_negotiation_round (bp sp : List Player) (pb ps : Player)
    (buyerAccepted sellerAccepted : Bool) : TradeResult :=
  if buyerAccepted && sellerAccepted then executeTradeBlock bp sp pb ps
  else { buyerPlayers := bp, sellerPlayers := sp, executed := false }

/-- One round of TransferNegotiationSystem.run_two_club_negotiation
(src/main.py lines 131-136): the squad reference is replaced by the proposal
if and only if both votes are true. -/
def run_two_club_round (current_squad proposal : List ℕ) (v1 v2 : Bool) : List ℕ :=
  if v1 && v2 then proposal else current_squad

/-- Claim C1: a proposed move is committed exactly when both agents vote
true.  For the inter-club loop (players drawn from the mediator pools, which
alias the agents' live lists, hence the membership hypotheses): the trade
executes iff both votes are true, a single false vote leaves both pools
untouched, and on commit the two players are exchanged between the pools.
For the index-based loop: the squad reference is replaced iff both votes are
true. -/
theorem mutual_consent_commit
    (bp sp : List Player) (pb ps : Player) (bv sv : Bool)
    (cs prop : List ℕ) (v1 v2 : Bool)
    (hb : pb ∈ bp) (hs : ps ∈ sp) :
    (run_club_negotiation_round bp sp pb ps bv sv).executed = (bv && sv) ∧
    ((bv && sv) = false →
      run_club_negotiation_round bp sp pb ps bv sv =
        { buyerPlayers := bp, sellerPlayers := sp, executed := false }) ∧
    ((bv && sv) = true →
      run_club_negotiation_round bp sp pb ps bv sv =
        { buyerPlayers := bp.erase pb ++ [ps],
          sellerPlayers := sp.erase ps ++ [pb], executed := true }) ∧
    ((v1 && v2) = false → run_two_club_round cs prop v1 v2 = cs) ∧
    ((v1 && v2) = true → run_two_club_round cs prop v1 v2 = prop) := by
  refine ⟨?_, ?_, ?_, ?_, ?_⟩
  · unfold run_club_negotiation_round executeTradeBlock
    cases bv <;> cases sv <;> simp [hb, hs]
  · intro h
    unfold run_club_negotiation_round
    rw [h]
    simp
  · intro h
    unfold run_club_negotiation_round executeTradeBlock
    rw [h]
    simp [hb, hs]
  · intro h
    unfold run_two_club_round
    rw [h]
    simp
  · intro h
    unfold run_two_club_round
    rw [h]
    simp

/-- Witness for C1 at concrete pools, players, squads and votes. -/
theorem mutual_consent_commit_witness :
    mkPlayer ("A") 25 50 ∈ [mkPlayer ("A") 25 50] ∧
    mkPlayer ("B") 30 60 ∈ [mkPlayer ("B") 30 60] ∧
    (run_club_negotiation_round [mkPlayer ("A") 25 50] [mkPlayer ("B") 30 60]
      (mkPlayer ("A") 25 50) (mkPlayer ("B") 30 60) true false).executed =
      (true && false) :=
  ⟨List.mem_singleton.mpr rfl, List.mem_singleton.mpr rfl,
   (mutual_consent_commit [mkPlayer ("A") 25 50] [mkPlayer ("B") 30 60]
      (mkPlayer ("A") 25 50) (mkPlayer ("B") 30 60) true false [0] [1] true true
      (List.mem_singleton.mpr rfl) (List.mem_singleton.mpr rfl)).1⟩

/-- The per-adjacent-pair accumulation of
SellerClubAgent._calculate_synergy_bonus (src/AgentenSystem/SellerClubAgent.py
lines 181-206) over squad_indices; none models an IndexError while indexing
self.players. -/
def sellerSynergyAux (players : List Player) : List ℕ → Option ℚ
  | [] => some 0
  | [_] => some 0
  | i :: j :: rest =>
    match players.get? i, players.get? j with
    | some p1, some p2 =>
      (sellerSynergyAux players (j :: rest)).map (fun acc =>
        acc +
          (max 0 (MAX_PASS_SYNERGY -
              |p1.short_pass - p2.short_pass| / PASS_SYNERGY_THRESHOLD * MAX_PASS_SYNERGY) +
           max 0 (MAX_AGE_SYNERGY - |p1.age - p2.age| / AGE_SYNERGY_DIVISOR)))
    | _, _ => none

/-- SellerClubAgent._calculate_synergy_bonus: the pair sum scaled by
SYNERGY_WEIGHT. -/
def seller_calculate_synergy_bonus (players : List Player) (squad : List ℕ) :
    Option ℚ :=
  (sellerSynergyAux players squad).map (· * SYNERGY_WEIGHT)

/-- FootballAgent.calculate_utility_for_hypothetical_squad
(src/AgentenSystem/PlayerAgent.py lines 224-265) as dispatched on a
SellerClubAgent: position-weighted player utilities (the slot weight is
position_weights[min(i, len(position_weights)-1)], an IndexError - none -
when position_weights is empty and the squad is not), plus the seller's
synergy and age bonuses evaluated on squad_indices = range(len(squad)). -/
def seller_calculate_utility_for_hypothetical_squad (aw pw : List ℚ)
    (hyp : List Player) : Option ℚ :=
  let squadIdx := List.range hyp.length
  let baseOpt : Option ℚ :=
    if hyp.length ≠ 0 ∧ pw = [] then none
    else some ((hyp.enum).foldl
      (fun acc ip =>
        acc + evaluate_player aw ip.2 * pw.getD (min ip.1 (pw.length - 1)) 0) 0)
  match baseOpt with
  | none => none
  | some base =>
    match seller_calculate_synergy_bonus hyp squadIdx with
    | none => none
    | some syn =>
      match seller_calculate_age_bonus hyp squadIdx with
      | none => none
      | some ab => some (base + syn + ab)

/-- The live state of a SellerClubAgent: its player pool, its normalized
attribute weights, its position weights and its SA state. -/
structure SellerAgentState where
  players : List Player
  attribute_weights : List ℚ
  position_weights : List ℚ
  sa : SAState
deriving DecidableEq

/-- SellerClubAgent.vote (src/AgentenSystem/SellerClubAgent.py lines
111-179): evaluate the current squad, look up player_to_give by identity or
name (modelled by name, which the disjunction in
FootballAgent.get_player_index reduces to), reject immediately when absent,
otherwise evaluate the hypothetical squad after the exchange and run the SA
block.  none models an exception escaping the call. -/
def seller_vote (cfg : SAConfig) (rlog rexp : ℚ → ℚ) (st : SellerAgentState)
    (player_to_give player_to_receive : Player) (r : ℚ) :
    Option (Bool × SellerAgentState) :=
  match seller_calculate_utility_for_hypothetical_squad st.attribute_weights
      st.position_weights st.players with
  | none => none
  | some current_utility =>
    match st.players.findIdx? (fun q => q.name == player_to_give.name) with
    | none => some (false, st)
    | some idx =>
      let hyp := st.players.eraseIdx idx ++ [player_to_receive]
      match seller_calculate_utility_for_hypothetical_squad st.attribute_weights
          st.position_weights hyp with
      | none => none
      | some proposed_utility =>
        let res := saCore cfg rlog rexp st.sa current_utility proposed_utility r
        some (res.1, { st with sa := res.2 })

theorem getPlayersAt_isSome (players : List Player) :
    ∀ squad : List ℕ, (∀ i ∈ squad, i < players.length) →
      (getPlayersAt players squad).isSome := by
  intro squad
  induction squad with
  | nil => intro _; rfl
  | cons i rest ih =>
    intro h
    have hi : i < players.length := h i (by simp)
    have hp : players.get? i = some (players.get ⟨i, hi⟩) := List.get?_eq_get hi
    unfold getPlayersAt
    rw [hp]
    have := ih (fun j hj => h j (by simp [hj]))
    obtain ⟨ps, hps⟩ := Option.isSome_iff_exists.mp this
    rw [hps]
    rfl

theorem getPlayersAt_length (players : List Player) :
    ∀ (squad : List ℕ) (ps : List Player),
      getPlayersAt players squad = some ps → ps.length = squad.length := by
  intro squad
  induction squad with
  | nil => intro ps h; cases h; rfl
  | cons i rest ih =>
    intro ps h
    unfold getPlayersAt at h
    cases hg : players.get? i with
    | none => rw [hg] at h; cases h
    | some p =>
      rw [hg] at h
      cases hr : getPlayersAt players rest with
      | none => rw [hr] at h; cases h
      | some qs =>
        rw [hr] at h
        cases h
        simp [ih qs hr]

theorem sellerSynergyAux_isSome (players : List Player) :
    ∀ squad : List ℕ, (∀ i ∈ squad, i < players.length) →
      (sellerSynergyAux players squad).isSome := by
  intro squad
  induction squad with
  | nil => intro _; rfl
  | cons i rest ih =>
    intro h
    cases rest with
    | nil => rfl
    | cons j rest' =>
      have hi : i < players.length := h i (by simp)
      have hj : j < players.length := h j (by simp)
      have hp1 : players.get? i = some (players.get ⟨i, hi⟩) := List.get?_eq_get hi
      have hp2 : players.get? j = some (players.get ⟨j, hj⟩) := List.get?_eq_get hj
      unfold sellerSynergyAux
      rw [hp1, hp2]
      have := ih (fun k hk => h k (by simp at hk ⊢; tauto))
      obtain ⟨acc, hacc⟩ := Option.isSome_iff_exists.mp this
      rw [hacc]
      rfl

theorem seller_utility_isSome (aw pw : List ℚ) (hyp : List Player)
    (h1 : hyp ≠ []) (h2 : pw ≠ []) :
    (seller_calculate_utility_for_hypothetical_squad aw pw hyp).isSome := by
  unfold seller_calculate_utility_for_hypothetical_squad
  dsimp only
  have hbase : ¬ (hyp.length ≠ 0 ∧ pw = []) := fun h => h2 h.2
  rw [if_neg hbase]
  have hrange : ∀ i ∈ List.range hyp.length, i < hyp.length :=
    fun i hi => List.mem_range.mp hi
  have hsynSome : (seller_calculate_synergy_bonus hyp (List.range hyp.length)).isSome := by
    unfold seller_calculate_synergy_bonus
    obtain ⟨a, ha⟩ := Option.isSome_iff_exists.mp
      (sellerSynergyAux_isSome hyp (List.range hyp.length) hrange)
    rw [ha]
    rfl
  obtain ⟨syn, hsyn⟩ := Option.isSome_iff_exists.mp hsynSome
  rw [hsyn]
  have hageSome : (seller_calculate_age_bonus hyp (List.range hyp.length)).isSome := by
    unfold seller_calculate_age_bonus
    obtain ⟨ps, hps⟩ := Option.isSome_iff_exists.mp
      (getPlayersAt_isSome hyp (List.range hyp.length) hrange)
    rw [hps]
    dsimp only
    have hlen : ps.length = hyp.length := by
      have := getPlayersAt_length hyp (List.range hyp.length) ps hps
      simpa using this
    have hne : ¬ (ps.map Player.age).length = 0 := by
      simp only [List.length_map, hlen]
      intro hz
      exact h1 (List.length_eq_zero.mp hz)
    rw [if_neg hne]
    rfl
  obtain ⟨ab, hab⟩ := Option.isSome_iff_exists.mp hageSome
  rw [hab]
  rfl

/-- Claim C10 (amended): whenever the seller's player pool is nonempty and
its position-weight list is nonempty (so that the current-utility evaluation
performed first cannot raise), a vote call whose player_to_give is not in the
pool returns False with the whole agent state - SA counters included -
unchanged. -/
theorem seller_vote_not_found_rejects_unchanged
    (cfg : SAConfig) (rlog rexp : ℚ → ℚ) (st : SellerAgentState)
    (give recv : Player) (r : ℚ)
    (hne : st.players ≠ []) (hpw : st.position_weights ≠ [])
    (hnf : ∀ q ∈ st.players, q.name ≠ give.name) :
    seller_vote cfg rlog rexp st give recv r = some (false, st) := by
  obtain ⟨cu, hcu⟩ := Option.isSome_iff_exists.mp
    (seller_utility_isSome st.attribute_weights st.position_weights st.players hne hpw)
  have hfind : st.players.findIdx? (fun q => q.name == give.name) = none :=
    List.findIdx?_eq_none_iff.mpr (fun x hx => by
      simp only [beq_eq_false_iff_ne, ne_eq]
      exact hnf x hx)
  unfold seller_vote
  rw [hcu, hfind]

/-- Witness for the amended C10 theorem: a one-player pool and a lookup for a
player with a different name. -/
theorem seller_vote_not_found_witness :
    (({ players := [mkPlayer ("A") 25 50], attribute_weights := [1],
        position_weights := [1], sa := initSAState } : SellerAgentState).players ≠ [] ∧
     ({ players := [mkPlayer ("A") 25 50], attribute_weights := [1],
        position_weights := [1], sa := initSAState } : SellerAgentState).position_weights ≠ []) ∧
    seller_vote agentenSAConfig qlogApprox qexpOne
      { players := [mkPlayer ("A") 25 50], attribute_weights := [1],
        position_weights := [1], sa := initSAState }
      (mkPlayer ("X") 20 1) (mkPlayer ("Y") 20 1) 0 =
      some (false, { players := [mkPlayer ("A") 25 50],
                     attribute_weights := [1],
                     position_weights := [1], sa := initSAState }) :=
  ⟨⟨by simp, by simp⟩,
   seller_vote_not_found_rejects_unchanged agentenSAConfig qlogApprox qexpOne
     { players := [mkPlayer ("A") 25 50], attribute_weights := [1],
       position_weights := [1], sa := initSAState }
     (mkPlayer ("X") 20 1) (mkPlayer ("Y") 20 1) 0
     (by simp) (by simp)
     (by
       intro q hq
       simp only [List.mem_singleton] at hq
       subst hq
       decide)⟩

/-- Counterexample to claim C10 as stated: with an empty player pool the
player_to_give is certainly not found, but the call raises
ZeroDivisionError inside the current-utility evaluation (performed before
the lookup) instead of returning False - the age-bonus override divides by
the length of the empty age list. -/
theorem seller_vote_not_found_counterexample :
    (∀ q ∈ ({ players := [], attribute_weights := [1], position_weights := [1],
              sa := initSAState } : SellerAgentState).players,
      q.name ≠ (mkPlayer ("X") 20 1).name) ∧
    seller_vote agentenSAConfig qlogApprox qexpOne
      { players := [], attribute_weights := [1], position_weights := [1],
        sa := initSAState }
      (mkPlayer ("X") 20 1) (mkPlayer ("Y") 20 1) 0 = none := by
  constructor
  · intro q hq
    simp at hq
  · rfl

/-- ClubBasedFootballMediator._swap_positions_in_squad
(src/AgentenSystem/FootballMediator.py lines 122-150): copy the squad and
swap the entries at two random positions (the while loop guarantees the two
positions differ whenever the squad has more than one slot); squads of
length at most 1 are returned unchanged.  The random positions are inputs
here. -/
def swap_positions_in_squad (squad : List ℕ) (pos1 pos2 : ℕ) : List ℕ :=
  if squad.length ≤ 1 then squad
  else (squad.set pos1 (squad.getD pos2 0)).set pos2 (squad.getD pos1 0)

/-- The write-back loop of ClubBasedFootballMediator._shuffle_squad: for each
selected position, store the corresponding shuffled value. -/
def writeBack (squad : List ℕ) (positions shuffled : List ℕ) : List ℕ :=
  (positions.zip shuffled).foldl (fun acc pv => acc.set pv.1 pv.2) squad

/-- ClubBasedFootballMediator._shuffle_squad
(src/AgentenSystem/FootballMediator.py lines 194-229): extract the entries at
the sampled positions (random.sample returns distinct in-range positions),
permute them (random.shuffle) and write them back; squads of length at most
1 are returned unchanged.  The sampled positions and the shuffled values are
inputs here. -/
def shuffle_squad (squad : List ℕ) (positions shuffled : List ℕ) : List ℕ :=
  if squad.length ≤ 1 then squad
  else writeBack squad positions shuffled

theorem count_set_add (x a : ℕ) :
    ∀ (l : List ℕ) (i : ℕ), i < l.length →
      (l.set i a).count x + (if l.getD i 0 = x then 1 else 0)
        = l.count x + (if a = x then 1 else 0) := by
  intro l
  induction l with
  | nil => intro i h; simp at h
  | cons b t ih =>
    intro i h
    cases i with
    | zero =>
      simp only [List.set_cons_zero, List.getD_cons_zero, List.count_cons, beq_iff_eq]
      split_ifs <;> omega
    | succ n =>
      have hn : n < t.length := by simpa using h
      have := ih n hn
      simp only [List.set_cons_succ, List.getD_cons_succ, List.count_cons, beq_iff_eq]
      split_ifs at this ⊢ <;> omega

theorem writeBack_count (x : ℕ) :
    ∀ (ps vs l : List ℕ), ps.Nodup → (∀ p ∈ ps, p < l.length) →
      vs.length = ps.length →
      (writeBack l ps vs).count x + (ps.map (fun p => l.getD p 0)).count x
        = l.count x + vs.count x := by
  intro ps
  induction ps with
  | nil =>
    intro vs l _ _ hlen
    have hv : vs = [] := List.length_eq_zero.mp (by simpa using hlen)
    subst hv
    simp [writeBack]
  | cons p pt ih =>
    intro vs l hnd hbnd hlen
    cases vs with
    | nil => simp at hlen
    | cons v vt =>
      have hp : p < l.length := hbnd p (by simp)
      have hstep : writeBack l (p :: pt) (v :: vt) = writeBack (l.set p v) pt vt := rfl
      have hpn : p ∉ pt := (List.nodup_cons.mp hnd).1
      have hbnd' : ∀ q ∈ pt, q < (l.set p v).length := by
        intro q hq
        rw [List.length_set]
        exact hbnd q (by simp [hq])
      have hmap : pt.map (fun q => (l.set p v).getD q 0) = pt.map (fun q => l.getD q 0) := by
        apply List.map_congr_left
        intro q hq
        have hne : p ≠ q := fun hh => hpn (hh ▸ hq)
        rw [List.getD_eq_getElem?_getD, List.getD_eq_getElem?_getD,
          List.getElem?_set_ne hne]
      have hrec := ih vt (l.set p v) (List.nodup_cons.mp hnd).2 hbnd' (by simpa using hlen)
      rw [hmap] at hrec
      have hset := count_set_add x v l p hp
      rw [hstep]
      simp only [List.map_cons, List.count_cons, beq_iff_eq]
      split_ifs at hset ⊢ <;> omega

theorem writeBack_perm (l ps vs : List ℕ) (hnd : ps.Nodup)
    (hbnd : ∀ p ∈ ps, p < l.length)
    (hperm : vs.Perm (ps.map (fun p => l.getD p 0))) :
    (writeBack l ps vs).Perm l := by
  have hlen : vs.length = ps.length := by simpa using hperm.length_eq
  apply List.perm_iff_count.mpr
  intro x
  have h1 := writeBack_count x ps vs l hnd hbnd hlen
  have h2 := List.perm_iff_count.mp hperm x
  omega

/-- Claim C7: in index-based mode, for every squad that is a permutation of
0..N-1, the swap and shuffle proposal generators return permutations of
0..N-1 of the same size with no duplicates (under the guarantees the random
helpers provide: both swap positions are in range and distinct, the sampled
shuffle positions are distinct and in range, and the shuffled values are a
permutation of the extracted values); consequently a committed move - the
proposal adopted when both votes are true - is again a permutation of
0..N-1. -/
theorem squad_validity_invariant
    (N : ℕ) (squad : List ℕ) (pos1 pos2 : ℕ) (positions shuffled : List ℕ)
    (current proposal : List ℕ) (v1 v2 : Bool)
    (hsq : squad.Perm (List.range N)) :
    (pos1 < squad.length → pos2 < squad.length → pos1 ≠ pos2 →
      (swap_positions_in_squad squad pos1 pos2).Perm (List.range N) ∧
      (swap_positions_in_squad squad pos1 pos2).length = squad.length ∧
      (swap_positions_in_squad squad pos1 pos2).Nodup) ∧
    (positions.Nodup → (∀ p ∈ positions, p < squad.length) →
      shuffled.Perm (positions.map (fun p => squad.getD p 0)) →
      (shuffle_squad squad positions shuffled).Perm (List.range N) ∧
      (shuffle_squad squad positions shuffled).length = squad.length ∧
      (shuffle_squad squad positions shuffled).Nodup) ∧
    (proposal.Perm (List.range N) → (v1 && v2) = true →
      (run_two_club_round current proposal v1 v2).Perm (List.range N)) := by
  refine ⟨?_, ?_, ?_⟩
  · intro h1 h2 hne
    have hbody : (swap_positions_in_squad squad pos1 pos2).Perm squad := by
      unfold swap_positions_in_squad
      split_ifs with hlen
      · exact List.Perm.refl _
      · have hwb : (squad.set pos1 (squad.getD pos2 0)).set pos2 (squad.getD pos1 0)
            = writeBack squad [pos1, pos2] [squad.getD pos2 0, squad.getD pos1 0] := rfl
        rw [hwb]
        apply writeBack_perm
        · simp [hne]
        · intro p hp
          rcases List.mem_pair.mp hp with h | h <;> subst h <;> assumption
        · simp only [List.map_cons, List.map_nil]
          exact List.Perm.swap _ _ _
    have hfull := hbody.trans hsq
    exact ⟨hfull, hbody.length_eq, hfull.nodup_iff.mpr (List.nodup_range N)⟩
  · intro hnd hbnd hsh
    have hbody : (shuffle_squad squad positions shuffled).Perm squad := by
      unfold shuffle_squad
      split_ifs with hlen
      · exact List.Perm.refl _
      · exact writeBack_perm squad positions shuffled hnd hbnd hsh
    have hfull := hbody.trans hsq
    exact ⟨hfull, hbody.length_eq, hfull.nodup_iff.mpr (List.nodup_range N)⟩
  · intro hprop hv
    unfold run_two_club_round
    rw [hv]
    simpa using hprop

/-- Witness for C7 at a concrete squad, swap positions, shuffle positions and
shuffled values. -/
theorem squad_validity_invariant_witness :
    ([2, 0, 1] : List ℕ).Perm (List.range 3) ∧
    (0 : ℕ) < ([2, 0, 1] : List ℕ).length ∧ (2 : ℕ) < ([2, 0, 1] : List ℕ).length ∧
    (0 : ℕ) ≠ 2 ∧
    (swap_positions_in_squad [2, 0, 1] 0 2).Perm (List.range 3) ∧
    (swap_positions_in_squad [2, 0, 1] 0 2).Nodup := by
  have h := (squad_validity_invariant 3 [2, 0, 1] 0 2 [0, 1] [0, 2] [0, 1, 2] [0, 1, 2]
    true true (by decide)).1 (by decide) (by decide) (by decide)
  exact ⟨by decide, by decide, by decide, by decide, h.1, h.2.2⟩

/-- Python str.strip(): remove leading and trailing whitespace. -/
def pyStrip (s : List Char) : List Char :=
  ((s.dropWhile Char.isWhitespace).reverse.dropWhile Char.isWhitespace).reverse

/-- Python str.replace(c, "") for a single character: drop every occurrence. -/
def removeChar (c : Char) (s : List Char) : List Char :=
  s.filter (· != c)

/-- Python str.upper() on the character list. -/
def toUpperList (s : List Char) : List Char :=
  s.map Char.toUpper

/-- Python substring containment (pat in s). -/
def hasSubstr (pat : List Char) : List Char → Bool
  | [] => pat.isEmpty
  | c :: rest => pat.isPrefixOf (c :: rest) || hasSubstr pat rest

/-- Python str.replace(pat, rep): replace non-overlapping occurrences left to
right.  Structural fuel recursion (the fuel is the remaining length, which
bounds the number of steps). -/
def replaceSubstrAux (pat rep : List Char) : ℕ → List Char → List Char
  | 0, s => s
  | _ + 1, [] => []
  | fuel + 1, c :: rest =>
    if pat ≠ [] ∧ pat.isPrefixOf (c :: rest) then
      rep ++ replaceSubstrAux pat rep fuel ((c :: rest).drop pat.length)
    else
      c :: replaceSubstrAux pat rep fuel rest

def replaceSubstr (pat rep s : List Char) : List Char :=
  replaceSubstrAux pat rep s.length s

/-- The digit string read as a natural number. -/
def digitsToNat (s : List Char) : ℕ :=
  s.foldl (fun n c => 10 * n + (c.toNat - 48)) 0

/-- Python float() restricted to the plain decimal literals that can reach it
here: integer part, optional dot, fractional part (at least one digit
overall, only digits and at most one dot); none models ValueError.  Returns
(integer part, fraction digits value, fraction digit count). -/
def parseFloatParts (s : List Char) : Option (ℕ × ℕ × ℕ) :=
  match s.splitOn '.' with
  | [a] => if a ≠ [] ∧ a.all Char.isDigit then some (digitsToNat a, 0, 0) else none
  | [a, b] =>
    if (a ≠ [] ∨ b ≠ []) ∧ a.all Char.isDigit ∧ b.all Char.isDigit then
      some (digitsToNat a, digitsToNat b, b.length)
    else none
  | _ => none

/-- Branch selection of Player._parse_value of src/AgentenSystem/PlayerAgent.py
(lines 58-107), returning the decimal literal handed to float() (as parsed
parts) together with the multiplier chosen by the suffix branch: strip
currency symbols and commas; a case-insensitive M (K) suffix multiplies by
1000000 (1000); otherwise, when ".000" occurs and the original string has no
M/K, the dots are treated as thousands separators and removed. -/
def parse_value_agenten_parts (value_str : String) : Option ((ℕ × ℕ × ℕ) × ℕ) :=
  let s := value_str.toList
  let clean := removeChar '£' (removeChar ',' (removeChar '€' (removeChar '$' s)))
  if (toUpperList clean).contains 'M' then
    (parseFloatParts (removeChar 'M' (toUpperList clean))).map (fun p => (p, 1000000))
  else if (toUpperList clean).contains 'K' then
    (parseFloatParts (removeChar 'K' (toUpperList clean))).map (fun p => (p, 1000))
  else if hasSubstr (".000".toList) clean then
    let clean2 :=
      if clean.contains '.' ∧ ¬ (toUpperList s).contains 'M' ∧
          ¬ (toUpperList s).contains 'K' then
        removeChar '.' clean
      else clean
    (parseFloatParts clean2).map (fun p => (p, 1))
  else
    (parseFloatParts clean).map (fun p => (p, 1))

/-- Player._parse_value of src/AgentenSystem/PlayerAgent.py (lines 58-107):
the early "$0" / empty return, then float(clean_value_str) * multiplier with
a ValueError (no parse) yielding 0.0. -/
def parse_value_agenten (value_str : String) : ℚ :=
  let s := value_str.toList
  if s.isEmpty ∨ pyStrip s = "$0".toList then 0
  else
    match parse_value_agenten_parts value_str with
    | some (parts, mult) =>
      ((parts.1 : ℚ) + (parts.2.1 : ℚ) / (10 : ℚ) ^ parts.2.2) * (mult : ℚ)
    | none => 0

/-- Branch selection of Player._parse_value of src/PlayerAgent.py (lines
53-74): strip currency symbols and commas and whitespace, then branch in
order on ".000" (remove the occurrences, multiplier 1000), ".00" (remove,
multiplier 1), then case-insensitive M (1000000) and K (1000) suffixes. -/
def parse_value_legacy_parts (value_str : String) : Option ((ℕ × ℕ × ℕ) × ℕ) :=
  let s := value_str.toList
  let clean := pyStrip (removeChar '€' (removeChar ',' (removeChar '$' s)))
  if hasSubstr (".000".toList) clean then
    (parseFloatParts (replaceSubstr (".000".toList) [] clean)).map (fun p => (p, 1000))
  else if hasSubstr (".00".toList) clean then
    (parseFloatParts (replaceSubstr (".00".toList) [] clean)).map (fun p => (p, 1))
  else if (toUpperList clean).contains 'M' then
    (parseFloatParts (removeChar 'M' (toUpperList clean))).map (fun p => (p, 1000000))
  else if (toUpperList clean).contains 'K' then
    (parseFloatParts (removeChar 'K' (toUpperList clean))).map (fun p => (p, 1000))
  else
    (parseFloatParts clean).map (fun p => (p, 1))

/-- Player._parse_value of src/PlayerAgent.py (lines 53-74): the early "$0" /
empty return, then the branch value with a ValueError (no parse) yielding
0.0. -/
def parse_value_legacy (value_str : String) : ℚ :=
  let s := value_str.toList
  if s.isEmpty ∨ s = "$0".toList then 0
  else
    match parse_value_legacy_parts value_str with
    | some (parts, mult) =>
      ((parts.1 : ℚ) + (parts.2.1 : ℚ) / (10 : ℚ) ^ parts.2.2) * (mult : ℚ)
    | none => 0

/-- Claim C8 (amended): the AgentenSystem parser
(src/AgentenSystem/PlayerAgent.py) satisfies every case of the claim,
including case-insensitive K/M suffixes and the dotted-thousands convention;
the legacy parser (src/PlayerAgent.py) agrees on all of them except the
dotted-thousands value "1.500.000", which it parses to 1500.0 because its
str.replace(".000", "") removes only the final ".000" group before
multiplying by 1000. -/
theorem parse_value_cases :
    parse_value_agenten ("$0") = 0 ∧
    parse_value_agenten ("$1,234") = 1234 ∧
    parse_value_agenten ("$500K") = 500000 ∧
    parse_value_agenten ("$500k") = 500000 ∧
    parse_value_agenten ("$1.2M") = 1200000 ∧
    parse_value_agenten ("$1.2m") = 1200000 ∧
    parse_value_agenten ("1.500.000") = 1500000 ∧
    parse_value_agenten ("$2,500.000") = 2500000 ∧
    parse_value_legacy ("$0") = 0 ∧
    parse_value_legacy ("$1,234") = 1234 ∧
    parse_value_legacy ("$500K") = 500000 ∧
    parse_value_legacy ("$1.2M") = 1200000 ∧
    parse_value_legacy ("$2,500.000") = 2500000 ∧
    parse_value_legacy ("1.500.000") = 1500 := by
  refine ⟨?_, ?_, ?_, ?_, ?_, ?_, ?_, ?_, ?_, ?_, ?_, ?_, ?_, ?_⟩
  · simp +decide only [parse_value_agenten]
  · have h : parse_value_agenten_parts ("$1,234") = some ((1234, 0, 0), 1) := by decide
    simp +decide only [parse_value_agenten, h]
    norm_num
  · have h : parse_value_agenten_parts ("$500K") = some ((500, 0, 0), 1000) := by decide
    simp +decide only [parse_value_agenten, h]
    norm_num
  · have h : parse_value_agenten_parts ("$500k") = some ((500, 0, 0), 1000) := by decide
    simp +decide only [parse_value_agenten, h]
    norm_num
  · have h : parse_value_agenten_parts ("$1.2M") = some ((1, 2, 1), 1000000) := by decide
    simp +decide only [parse_value_agenten, h]
    norm_num
  · have h : parse_value_agenten_parts ("$1.2m") = some ((1, 2, 1), 1000000) := by decide
    simp +decide only [parse_value_agenten, h]
    norm_num
  · have h : parse_value_agenten_parts ("1.500.000") = some ((1500000, 0, 0), 1) := by
      decide
    simp +decide only [parse_value_agenten, h]
    norm_num
  · have h : parse_value_agenten_parts ("$2,500.000") = some ((2500000, 0, 0), 1) := by
      decide
    simp +decide only [parse_value_agenten, h]
    norm_num
  · simp +decide only [parse_value_legacy]
  · have h : parse_value_legacy_parts ("$1,234") = some ((1234, 0, 0), 1) := by decide
    simp +decide only [parse_value_legacy, h]
    norm_num
  · have h : parse_value_legacy_parts ("$500K") = some ((500, 0, 0), 1000) := by decide
    simp +decide only [parse_value_legacy, h]
    norm_num
  · have h : parse_value_legacy_parts ("$1.2M") = some ((1, 2, 1), 1000000) := by decide
    simp +decide only [parse_value_legacy, h]
    norm_num
  · have h : parse_value_legacy_parts ("$2,500.000") = some ((2500, 0, 0), 1000) := by
      decide
    simp +decide only [parse_value_legacy, h]
    norm_num
  · have h : parse_value_legacy_parts ("1.500.000") = some ((1, 500, 3), 1000) := by decide
    simp +decide only [parse_value_legacy, h]
    norm_num

/-- Counterexample to claim C8 as stated: the legacy parser of
src/PlayerAgent.py parses the dotted-thousands value "1.500.000" to 1500.0,
not the claimed 1500000.0 - replacing ".000" leaves "1.500", i.e. 1.5, which
the branch then multiplies by 1000. -/
theorem parse_value_dotted_thousands_counterexample :
    parse_value_legacy ("1.500.000") = 1500 ∧ (1500 : ℚ) ≠ 1500000 := by
  constructor
  · have h : parse_value_legacy_parts ("1.500.000") = some ((1, 500, 3), 1000) := by decide
    simp +decide only [parse_value_legacy, h]
    norm_num
  · norm_num
